import Mathlib

/-!
# HCTC-REPORT — Message Ingestion & Conversation-Routing Engine, shallow embedding

This file embeds, in Lean 4, the parts of the HCTC-REPORT repository that the
specification's claims are about:

* `src/src/services/message_service.py` — `MessageService.log_message` and
  `MessageService._update_conversation` (the Message Store and the Conversation
  Aggregator);
* `src/src/database/models.py` — the `Message`, `Conversation` and `AgentLeave`
  rows, including the unique constraint on `messages.message_id` and the column
  defaults;
* `src/src/api/webhook_app.py` — the `/team/leaves` handler (`create_leave`),
  the two daily Excel report queries, the `/send` logging path, and the
  Facebook event dispatch (`WebhookHandler._process_facebook_message`);
* `src/src/utils/agents.py` — `extract_initials_and_strip`;
* `src/src/utils/security.py` — `sanitize_input`.

Databases are embedded as lists of rows; machine time as `Nat` seconds;
Python's `datetime` values as `Nat` instants.  A fallible operation returns its
post-state together with an `Except` value: `.error` corresponds to the Python
exception propagating to the caller, and the post-state component carries what
the database holds after the call (SQLAlchemy rolls the failed transaction
back, so a failed insert leaves the store unchanged).
-/

namespace HCTC

/-- Python `str.strip()` whitespace: space, tab, newline, carriage return,
vertical tab, form feed (the inputs of interest are ASCII). -/
def isPySpace (c : Char) : Bool :=
  c = ' ' || c = '\t' || c = '\n' || c = '\r' || c = '\x0b' || c = '\x0c'

/-- Drop leading and trailing Python whitespace from a character list. -/
def pyStripList (cs : List Char) : List Char :=
  ((cs.dropWhile isPySpace).reverse.dropWhile isPySpace).reverse

/-- Python `str.strip()`. -/
def pyStrip (s : String) : String := ⟨pyStripList s.data⟩

/-- Python slicing `s[:n]`: the first `n` characters. -/
def pyTake (n : Nat) (s : String) : String := ⟨s.data.take n⟩

/-- A row of the `messages` table (`models.py`, class `Message`).  The
`extra_data` JSON text is kept as the key/value pairs it serializes. -/
structure Msg where
  agent : String
  platform : String
  recipient : String
  content : String
  message_type : Option String
  message_id : Option String
  sender_id : Option String
  is_incoming : Bool
  status : String
  extra_data : Option (List (String × String))
  timestamp : Nat
deriving Repr, DecidableEq

/-- A row of the `conversations` table (`models.py`, class `Conversation`).
`agent` is nullable; `message_count` defaults to 0 and `is_active` to `true`
in the column declarations. -/
structure Conversation where
  recipient : String
  platform : String
  agent : Option String
  last_message_at : Nat
  message_count : Nat
  is_active : Bool
deriving Repr, DecidableEq

/-- A row of the `agent_leaves` table (`models.py`, class `AgentLeave`).
`status` defaults to `"approved"`. -/
structure AgentLeave where
  agent : String
  start_date : Nat
  end_date : Nat
  reason : Option String
  status : String
deriving Repr, DecidableEq

/-- The mutable store the Message Store and Conversation Aggregator share. -/
structure DB where
  messages : List Msg
  conversations : List Conversation
deriving Repr, DecidableEq

/-- The exceptions `MessageService.log_message` can propagate: `ValueError`
for failed validation, and a storage-layer error (e.g. the `IntegrityError`
raised when an INSERT violates the unique constraint on
`messages.message_id`). -/
inductive LogError where
  | valueError (msg : String)
  | storageError (msg : String)
deriving Repr, DecidableEq

/-- The `_update_conversation` lookup filter:
`Conversation.recipient == r AND Conversation.platform == p`. -/
def convMatches (r p : String) (c : Conversation) : Bool :=
  c.recipient = r && c.platform = p

/-- `session.query(Conversation).filter(...).first()`. -/
def findConversation (convs : List Conversation) (r p : String) : Option Conversation :=
  convs.find? (convMatches r p)

/-- The in-place mutation `_update_conversation` applies to an existing row:
`conversation.agent = message.agent; conversation.last_message_at =
message.timestamp; conversation.message_count += 1`. -/
def touchConv (c : Conversation) (agent : String) (ts : Nat) : Conversation :=
  { c with agent := some agent, last_message_at := ts,
           message_count := c.message_count + 1 }

/-- Apply `touchConv` to the first row matching `(r, p)`, leaving the rest of
the table unchanged (the ORM mutates the row `first()` returned). -/
def updateFirst (convs : List Conversation) (r p agent : String) (ts : Nat) :
    List Conversation :=
  match convs with
  | [] => []
  | c :: rest =>
    if convMatches r p c then touchConv c agent ts :: rest
    else c :: updateFirst rest r p agent ts

/-- The row `_update_conversation` creates when no conversation exists:
`Conversation(recipient=..., platform=..., agent=..., last_message_at=...,
message_count=1)`; `is_active` takes its column default `true`. -/
def newConversation (r p agent : String) (ts : Nat) : Conversation :=
  { recipient := r, platform := p, agent := some agent,
    last_message_at := ts, message_count := 1, is_active := true }

/-- `MessageService._update_conversation`, the Conversation Aggregator's
`touch`: find-or-create keyed by (recipient, platform). -/
def update_conversation (convs : List Conversation) (m : Msg) : List Conversation :=
  match findConversation convs m.recipient m.platform with
  | some _ => updateFirst convs m.recipient m.platform m.agent m.timestamp
  | none => convs ++ [newConversation m.recipient m.platform m.agent m.timestamp]

/-- Does a stored message already carry this platform message id?  (The unique
constraint on `messages.message_id`; SQL `NULL`s never collide.) -/
def hasMessageId (db : DB) (mid : String) : Bool :=
  db.messages.any (fun m => m.message_id = some mid)

/-- Whether inserting a message with this (optional) platform message id hits
the unique constraint: SQL `NULL`s never collide, so only a present id can. -/
def dupCheck (db : DB) (mid : Option String) : Bool :=
  match mid with
  | some m => hasMessageId db m
  | none => false

/-- `MessageService.log_message`.

Control flow of the source, in order:
1. `if not agent or not platform or not recipient or not content:` raise
   `ValueError` (Python truthiness on the raw, untrimmed strings);
2. trim and truncate: `agent.strip()[:100]`, `platform.strip()[:50]`,
   `recipient.strip()[:50]`, `content.strip()`;
3. `if not content:` (the trimmed content) raise `ValueError` — the other
   three fields are *not* re-checked after trimming;
4. insert the `Message` row and `session.commit()` — if `message_id` is
   present and already stored, the commit violates the unique constraint and
   the resulting storage error propagates (`raise` in the handler), rolling
   the insert back;
5. on a successful commit, call `_update_conversation` on the same session;
   that helper catches any of its own exceptions and does not re-raise
   ("conversation update is not critical"), so a failed touch leaves the
   freshly committed message in place and the call still succeeds.

`touchOk` is the oracle for step 5: whether the conversation update's own
commit succeeds. `now` is the clock value used for the `timestamp` column
default. The returned `DB` is the post-state of the store. -/
def log_message (db : DB) (touchOk : Bool)
    (agent platform recipient content : String)
    (message_type message_id sender_id : Option String)
    (is_incoming : Bool) (status : String)
    (extra_data : Option (List (String × String))) (now : Nat) :
    DB × Except LogError Msg :=
  if agent = "" ∨ platform = "" ∨ recipient = "" ∨ content = "" then
    (db, .error (.valueError "Agent, platform, recipient, and content are required"))
  else if pyStrip content = "" then
    (db, .error (.valueError "Message content cannot be empty"))
  else if dupCheck db message_id then
    (db, .error (.storageError "UNIQUE constraint failed: messages.message_id"))
  else
    let m : Msg :=
      { agent := pyTake 100 (pyStrip agent), platform := pyTake 50 (pyStrip platform),
        recipient := pyTake 50 (pyStrip recipient), content := pyStrip content,
        message_type := message_type, message_id := message_id,
        sender_id := sender_id, is_incoming := is_incoming, status := status,
        extra_data := extra_data, timestamp := now }
    let db1 : DB := { db with messages := db.messages ++ [m] }
    (if touchOk then { db1 with conversations := update_conversation db1.conversations m }
     else db1,
     .ok m)

/-- Modelled from the spec: `MessageService.resolve_incoming_agent` is invoked
by the webhook handler (`webhook_app.py` lines 159 and 209) and the test suite,
but its definition is not under `src/`.  Per the spec's Conversation Router
contract: look up the Conversation for (recipient, platform); if found and its
owning agent is non-empty, return that agent; if not found or the owning agent
is empty, return the configured default agent identifier (a process-wide
constant, passed here as `defaultAgent`).  A pure read of the conversation
store. -/
def resolve_incoming_agent (convs : List Conversation)
    (recipient platform defaultAgent : String) : String :=
  match findConversation convs recipient platform with
  | some c =>
    match c.agent with
    | some a => if a = "" then defaultAgent else a
    | none => defaultAgent
  | none => defaultAgent

/-- `timedelta(days=1)` against start-of-day instants, in seconds. -/
def daySeconds : Nat := 86400

/-- The row filter of `/reports/agent-handled-daily-excel`
(`agent_handled_daily_excel`): `Message.agent == agent_name`,
`Message.is_incoming == True`, `start <= Message.timestamp < start + 1 day`. -/
def handledFilter (agentName : String) (start : Nat) (m : Msg) : Bool :=
  m.agent = agentName && m.is_incoming &&
    decide (start ≤ m.timestamp) && decide (m.timestamp < start + daySeconds)

/-- The row filter of `/reports/agent-daily-excel` (`agent_daily_excel`):
same window, but `Message.is_incoming == False` (outgoing only). -/
def outgoingFilter (agentName : String) (start : Nat) (m : Msg) : Bool :=
  m.agent = agentName && !m.is_incoming &&
    decide (start ≤ m.timestamp) && decide (m.timestamp < start + daySeconds)

/-- The phone-number collection loop of both report handlers:
`if m.recipient and m.recipient not in phone_numbers: phone_numbers.append(...)`.
First-occurrence order, empty recipients skipped. -/
def collectPhones (rows : List Msg) : List String :=
  rows.foldl
    (fun acc m =>
      if m.recipient ≠ "" && !(acc.contains m.recipient) then acc ++ [m.recipient]
      else acc)
    []

/-- Modelled from the spec: `MessageService.is_agent_on_leave` is invoked by
both report handlers (`webhook_app.py` lines 534 and 619) but its definition is
not under `src/`.  Per the spec's on-leave determination: the agent is on leave
for instant `t` iff an *approved* Leave record's half-open
`[start_date, end_date)` interval contains `t`. -/
def is_agent_on_leave (leaves : List AgentLeave) (agentName : String) (t : Nat) : Bool :=
  leaves.any (fun l =>
    l.agent = agentName && l.status = "approved" &&
      decide (l.start_date ≤ t) && decide (t < l.end_date))

/-- The report row both Excel endpoints build (Date, Agent display left out of
scope of the claims, MessagesHandled, PhoneNumbers, OnLeave). -/
structure DailyReport where
  date : Nat
  agent : String
  messagesHandled : Nat
  phoneNumbers : List String
  onLeave : Bool
deriving Repr, DecidableEq

/-- `/reports/agent-handled-daily-excel`: the incoming-direction daily report
for `agentName` on the day starting at instant `start`.  A pure read: it takes
the stores and returns a report, mutating nothing. -/
def agent_handled_daily (msgs : List Msg) (leaves : List AgentLeave)
    (agentName : String) (start : Nat) : DailyReport :=
  let rows := msgs.filter (handledFilter agentName start)
  { date := start, agent := agentName, messagesHandled := rows.length,
    phoneNumbers := collectPhones rows,
    onLeave := is_agent_on_leave leaves agentName start }

/-- `/reports/agent-daily-excel`: the outgoing-direction daily report. -/
def agent_daily (msgs : List Msg) (leaves : List AgentLeave)
    (agentName : String) (start : Nat) : DailyReport :=
  let rows := msgs.filter (outgoingFilter agentName start)
  { date := start, agent := agentName, messagesHandled := rows.length,
    phoneNumbers := collectPhones rows,
    onLeave := is_agent_on_leave leaves agentName start }

/-- `/team/leaves` (`create_leave` in `webhook_app.py`).

The handler reads `agent` (stripped), `start_date`, `end_date`, optional
`reason`, and `status` defaulting to `"approved"`; if agent, start or end is
missing/empty it returns HTTP 400; otherwise it adds the `AgentLeave` row and
returns HTTP 200.  The dates are modelled already parsed (`none` = absent or
empty field); the handler performs *no* comparison of `start_date` against the
current time — nothing in its body reads a clock.  Returns the new leave table
and the HTTP status code. -/
def create_leave (leaves : List AgentLeave) (agent : String)
    (start_date end_date : Option Nat) (reason : Option String)
    (status : Option String) : List AgentLeave × Nat :=
  let agent := pyStrip agent
  match start_date, end_date with
  | some s, some e =>
    if agent = "" then (leaves, 400)
    else
      (leaves ++ [{ agent := agent, start_date := s, end_date := e,
                    reason := reason, status := status.getD "approved" }], 200)
  | _, _ => (leaves, 400)

/-- `sanitize_input` (`security.py`): delete the characters `<`, `>`, `"`, `'`;
strip; truncate to 1000 characters. -/
def sanitize_input (s : String) : String :=
  let cleaned := s.data.filter (fun c =>
    !(c = '<' || c = '>' || c = Char.ofNat 34 || c = Char.ofNat 39))
  pyTake 1000 (pyStrip ⟨cleaned⟩)

/-! ## Agent-initials tag extraction (`utils/agents.py`)

The source uses two compiled regular expressions:

* `INITIALS_PATTERN_START = ^\s*\^([A-Za-z]{2,5})\b[:\-\s]*`  (via `re.match`)
* `INITIALS_PATTERN_END   = [:\-\s]*\^([A-Za-z]{2,5})\s*$`    (via `re.search`)

They are modelled as explicit character-list matchers.  For the start pattern
the group is a maximal alphabetic run: `[A-Za-z]{2,5}` is greedy and every
backtracking position inside a letter run fails the `\b` word boundary, so a
match exists iff the run after the caret has length 2–5 and the character
after it (if any) is not a word character.  For the end pattern `\s*$` pins
the match to the end of the string, the group is the maximal letter run
before the trailing whitespace, and at most one caret position can match
(a caret is neither a letter nor whitespace), so `re.search`'s leftmost match
is that one, extended left over the contiguous `[:\-\s]*` run. -/

/-- Regex word character `\w` over ASCII: letter, digit or underscore. -/
def isWordChar (c : Char) : Bool :=
  c.isAlpha || c.isDigit || c = '_'

/-- The `[:\-\s]` separator class. -/
def isSep (c : Char) : Bool :=
  c = ':' || c = '-' || isPySpace c

/-- Python `str.upper()` on an ASCII character. -/
def upperChar (c : Char) : Char :=
  if 97 ≤ c.toNat ∧ c.toNat ≤ 122 then Char.ofNat (c.toNat - 32) else c

/-- Match `INITIALS_PATTERN_START` against the whole input (as `re.match`
does).  Returns the captured letters and the characters left after the match
(the greedy `[:\-\s]*` tail consumed). -/
def matchStartTag (cs : List Char) : Option (List Char × List Char) :=
  let cs1 := cs.dropWhile isPySpace
  match cs1 with
  | '^' :: rest =>
    let letters := rest.takeWhile Char.isAlpha
    let after := rest.dropWhile Char.isAlpha
    let boundary := match after.head? with
      | none => true
      | some c => !isWordChar c
    if 2 ≤ letters.length && letters.length ≤ 5 && boundary then
      some (letters, after.dropWhile isSep)
    else none
  | _ => none

/-- Match `INITIALS_PATTERN_END` at the end of the input (the only place
`re.search` can find it).  Returns the captured letters and the characters
before the match. -/
def matchEndTag (cs : List Char) : Option (List Char × List Char) :=
  let rs := cs.reverse
  let rs1 := rs.dropWhile isPySpace
  let letters := rs1.takeWhile Char.isAlpha
  let rs2 := rs1.dropWhile Char.isAlpha
  match rs2 with
  | '^' :: before =>
    if 2 ≤ letters.length && letters.length ≤ 5 then
      some (letters.reverse, (before.dropWhile isSep).reverse)
    else none
  | _ => none

/-- `extract_initials_and_strip` (`utils/agents.py`): extract a leading or
trailing caret-marked initials tag and strip it from the content.

Source control flow: empty input returns `("", None)`; otherwise the text is
stripped, the start pattern is tried first (`sub` the match away, then
`.strip()`), then the end pattern; with no match the stripped text is
returned with no initials. -/
def extract_initials_and_strip (content : String) : String × Option String :=
  if content = "" then ("", none)
  else
    match matchStartTag (pyStrip content).data with
    | some (letters, rest) => (pyStrip ⟨rest⟩, some ⟨letters.map upperChar⟩)
    | none =>
      match matchEndTag (pyStrip content).data with
      | some (letters, rest) => (pyStrip ⟨rest⟩, some ⟨letters.map upperChar⟩)
      | none => (pyStrip content, none)

/-- The logging tail of `/send` (`send_message` in `webhook_app.py`): the text
is run through `extract_initials_and_strip`; the cleaned text is what is sent
and (sanitized) stored; the initials, when present, are stored under the
`extra_data` key `"agent_initials"` alongside `"provider": "cloud_api"`. -/
def send_message_log (db : DB) (agent toPhone text : String)
    (apiMessageId : Option String) (now : Nat) : DB × Except LogError Msg :=
  let pair := extract_initials_and_strip text
  let extra : List (String × String) :=
    match pair.2 with
    | some ini => [("provider", "cloud_api"), ("agent_initials", ini)]
    | none => [("provider", "cloud_api")]
  log_message db true agent "WhatsApp" toPhone (sanitize_input pair.1)
    (some "text") apiMessageId none false "sent" (some extra) now

/-! ## Facebook event dispatch (`WebhookHandler._process_facebook_message`) -/

/-- The shapes of a Facebook `messaging` event the handler distinguishes:
a message with text, a message with attachments, a message of neither kind,
or a postback. -/
inductive FBEventBody where
  | textMessage (mid : Option String) (text : String)
  | attachment (mid : Option String) (attachType : String)
  | unknownMessage (mid : Option String)
  | postback (title payload : String) (mid : Option String)
deriving Repr, DecidableEq

/-- `WebhookHandler._process_facebook_message`: for an ordinary message the
handling agent is resolved from the conversation store
(`resolve_incoming_agent(sender, "Facebook")`); for a postback the agent is
the literal `"Agent1"`.  `recipientId` is the page id from the event's
`recipient` field (only echoed into `extra_data`). -/
def process_facebook_message (db : DB) (defaultAgent sender recipientId : String)
    (body : FBEventBody) (now : Nat) : DB × Except LogError Msg :=
  match body with
  | .textMessage mid text =>
    let handling_agent := resolve_incoming_agent db.conversations sender "Facebook" defaultAgent
    log_message db true handling_agent "Facebook" sender (sanitize_input text)
      (some "text") mid (some sender) true "received"
      (some [("recipient_id", recipientId), ("message_type", "text")]) now
  | .attachment mid attachType =>
    let handling_agent := resolve_incoming_agent db.conversations sender "Facebook" defaultAgent
    log_message db true handling_agent "Facebook" sender
      (sanitize_input ("[Attachment] Type: " ++ attachType))
      (some "attachment") mid (some sender) true "received"
      (some [("recipient_id", recipientId), ("message_type", "attachment")]) now
  | .unknownMessage mid =>
    let handling_agent := resolve_incoming_agent db.conversations sender "Facebook" defaultAgent
    log_message db true handling_agent "Facebook" sender
      (sanitize_input "[Unknown message type]")
      (some "unknown") mid (some sender) true "received"
      (some [("recipient_id", recipientId), ("message_type", "unknown")]) now
  | .postback title payload mid =>
    log_message db true "Agent1" "Facebook" sender
      (sanitize_input ("[Postback] " ++ title ++ ": " ++ payload))
      (some "postback") mid (some sender) true "received"
      (some [("postback_title", title), ("postback_payload", payload)]) now

/-! ## Helper lemmas -/

/-- Touching a conversation changes neither its recipient nor its platform,
so it still matches the same lookup key. -/
theorem convMatches_touchConv (r p a : String) (ts : Nat) (c : Conversation) :
    convMatches r p (touchConv c a ts) = convMatches r p c := rfl

/-- If the `(r, p)` lookup finds `c`, then after `updateFirst` the same lookup
finds exactly the touched row. -/
theorem findConversation_updateFirst (convs : List Conversation) (r p a : String)
    (ts : Nat) (c : Conversation) (h : findConversation convs r p = some c) :
    findConversation (updateFirst convs r p a ts) r p = some (touchConv c a ts) := by
  induction convs with
  | nil => simp [findConversation] at h
  | cons d rest ih =>
    unfold findConversation at h ⊢
    unfold updateFirst
    cases hm : convMatches r p d with
    | true =>
      simp only [List.find?_cons, hm] at h
      cases h
      simp [List.find?_cons, convMatches_touchConv, hm]
    | false =>
      simp only [List.find?_cons, hm] at h
      simp only [hm, Bool.false_eq_true, if_false, List.find?_cons]
      exact ih h

/-- Inverting a successful `log_message` call: the returned row carries the
trimmed/truncated fields and the passed-through metadata. -/
theorem log_message_ok_inv (db : DB) (touchOk : Bool)
    (agent platform recipient content : String)
    (mt mi si : Option String) (inc : Bool) (st : String)
    (ed : Option (List (String × String))) (now : Nat) (m : Msg)
    (h : (log_message db touchOk agent platform recipient content mt mi si inc st ed now).2 = .ok m) :
    m = { agent := pyTake 100 (pyStrip agent), platform := pyTake 50 (pyStrip platform),
          recipient := pyTake 50 (pyStrip recipient), content := pyStrip content,
          message_type := mt, message_id := mi, sender_id := si,
          is_incoming := inc, status := st, extra_data := ed, timestamp := now } := by
  by_cases h1 : agent = "" ∨ platform = "" ∨ recipient = "" ∨ content = ""
  · unfold log_message at h; rw [if_pos h1] at h; simp at h
  · by_cases h2 : pyStrip content = ""
    · unfold log_message at h; rw [if_neg h1, if_pos h2] at h; simp at h
    · by_cases h3 : dupCheck db mi = true
      · unfold log_message at h; rw [if_neg h1, if_neg h2, if_pos h3] at h; simp at h
      · unfold log_message at h; rw [if_neg h1, if_neg h2, if_neg h3] at h
        simp at h
        exact h.symm

/-! ## The claims -/

/-- C1 counterexample.  The store already holds the message with
`platform_message_id = "wamid.1"`.  Re-delivering the same event is *not*
acknowledged successfully and does *not* return the existing row: the INSERT
violates the unique constraint on `messages.message_id` and `log_message`
propagates the storage error (the rolled-back transaction leaves the store
unchanged). -/
theorem C1_counterexample :
    log_message
      ⟨[⟨"Agent1", "WhatsApp", "+100", "hello", none, some "wamid.1", none, true,
         "received", none, 5⟩],
       [⟨"+100", "WhatsApp", some "Agent1", 5, 1, true⟩]⟩
      true "Agent1" "WhatsApp" "+100" "hello" none (some "wamid.1") none true
      "received" none 7 =
    (⟨[⟨"Agent1", "WhatsApp", "+100", "hello", none, some "wamid.1", none, true,
        "received", none, 5⟩],
      [⟨"+100", "WhatsApp", some "Agent1", 5, 1, true⟩]⟩,
     .error (.storageError "UNIQUE constraint failed: messages.message_id")) := by
  rfl

/-- C1 as amended: when `platform_message_id` is present and already stored,
a second `log_message` call creates no second Message row and performs no
Conversation update (the post-state equals the pre-state), but instead of
returning the existing row it raises the unique-constraint storage error to
the caller — duplicate delivery is an error, not a successful ack. -/
theorem C1_amended_duplicate_raises (db : DB) (touchOk : Bool)
    (agent platform recipient content : String)
    (mt : Option String) (mid : String) (si : Option String)
    (inc : Bool) (st : String) (ed : Option (List (String × String))) (now : Nat)
    (h1 : ¬(agent = "" ∨ platform = "" ∨ recipient = "" ∨ content = ""))
    (h2 : pyStrip content ≠ "")
    (h3 : hasMessageId db mid = true) :
    log_message db touchOk agent platform recipient content mt (some mid) si inc st ed now =
      (db, .error (.storageError "UNIQUE constraint failed: messages.message_id")) := by
  unfold log_message
  rw [if_neg h1, if_neg h2, if_pos (show dupCheck db (some mid) = true from h3)]

/-- Witness for C1 at a concrete input: a Facebook event re-delivered with
the already-stored id "mid9". -/
theorem C1_witness :
    log_message
      ⟨[⟨"Agent1", "Facebook", "fbu", "prev", none, some "mid9", none, true,
         "received", none, 2⟩], []⟩
      true "Agent2" "Facebook" "fbu" "yo" none (some "mid9") none true
      "received" none 8 =
    (⟨[⟨"Agent1", "Facebook", "fbu", "prev", none, some "mid9", none, true,
        "received", none, 2⟩], []⟩,
     .error (.storageError "UNIQUE constraint failed: messages.message_id")) :=
  C1_amended_duplicate_raises
    ⟨[⟨"Agent1", "Facebook", "fbu", "prev", none, some "mid9", none, true,
       "received", none, 2⟩], []⟩
    true "Agent2" "Facebook" "fbu" "yo" none "mid9" none true "received" none 8
    (by decide) (by decide) (by decide)

/-- C3 counterexample.  A genuinely new event is recorded while the
Conversation update fails (`touchOk = false`, the oracle for the touch's own
commit): the call still succeeds, the message is persisted, and the
conversation table is left without the update — the operation did *not* roll
back, so state with a persisted message and no aggregate update does occur. -/
theorem C3_counterexample :
    log_message ⟨[], []⟩ false "Agent1" "WhatsApp" "+100" "hello" none (some "w1")
      none true "received" none 5 =
    (⟨[⟨"Agent1", "WhatsApp", "+100", "hello", none, some "w1", none, true,
        "received", none, 5⟩], []⟩,
     .ok ⟨"Agent1", "WhatsApp", "+100", "hello", none, some "w1", none, true,
          "received", none, 5⟩) := by
  rfl

/-- C3 as amended: the message write is committed *before* the conversation
touch; `_update_conversation` catches its own failure and does not re-raise
("conversation update is not critical"), so when the touch fails the call
still returns the persisted message, the messages table has grown by exactly
that row, and the conversations table is unchanged — there is no rollback,
and a persisted message without its aggregate update is reachable state. -/
theorem C3_amended_touch_failure_nonfatal (db : DB)
    (agent platform recipient content : String)
    (mt mi si : Option String) (inc : Bool) (st : String)
    (ed : Option (List (String × String))) (now : Nat)
    (h1 : ¬(agent = "" ∨ platform = "" ∨ recipient = "" ∨ content = ""))
    (h2 : pyStrip content ≠ "")
    (h3 : dupCheck db mi = false) :
    log_message db false agent platform recipient content mt mi si inc st ed now =
      ({ messages := db.messages ++
           [{ agent := pyTake 100 (pyStrip agent), platform := pyTake 50 (pyStrip platform),
              recipient := pyTake 50 (pyStrip recipient), content := pyStrip content,
              message_type := mt, message_id := mi, sender_id := si,
              is_incoming := inc, status := st, extra_data := ed, timestamp := now }],
         conversations := db.conversations },
       .ok { agent := pyTake 100 (pyStrip agent), platform := pyTake 50 (pyStrip platform),
             recipient := pyTake 50 (pyStrip recipient), content := pyStrip content,
             message_type := mt, message_id := mi, sender_id := si,
             is_incoming := inc, status := st, extra_data := ed, timestamp := now }) := by
  unfold log_message
  rw [if_neg h1, if_neg h2, if_neg (by rw [h3]; exact Bool.false_ne_true)]
  rfl

/-- Witness for C3 at a concrete input. -/
theorem C3_witness :
    log_message ⟨[], []⟩ false "Agent1" "WhatsApp" "+100" "hey" none (some "w9")
      none true "received" none 6 =
    (⟨[⟨"Agent1", "WhatsApp", "+100", "hey", none, some "w9", none, true,
        "received", none, 6⟩], []⟩,
     .ok ⟨"Agent1", "WhatsApp", "+100", "hey", none, some "w9", none, true,
          "received", none, 6⟩) :=
  C3_amended_touch_failure_nonfatal ⟨[], []⟩ "Agent1" "WhatsApp" "+100" "hey"
    none (some "w9") none true "received" none 6 (by decide) (by decide) (by decide)

/-- C7 counterexample.  A whitespace-only `agent` is truthy in Python, so it
passes the `not agent` check; after trimming it becomes the empty string and
is persisted as such — no `ValidationError` is raised even though the agent
is empty after trimming.  (Only `content` is re-checked after trimming.) -/
theorem C7_counterexample :
    log_message ⟨[], []⟩ true " " "WhatsApp" "+100" "hello" none none none true
      "received" none 5 =
    (⟨[⟨"", "WhatsApp", "+100", "hello", none, none, none, true, "received", none, 5⟩],
      [⟨"+100", "WhatsApp", some "", 5, 1, true⟩]⟩,
     .ok ⟨"", "WhatsApp", "+100", "hello", none, none, none, true, "received", none, 5⟩) := by
  rfl

/-- C7 as amended: `log_message` raises `ValueError` before any write exactly
when one of agent/platform/recipient/content is the empty string (Python
falsiness, checked *before* trimming) or when content trims to empty;
whitespace-only agent/platform/recipient are accepted.  On the success path
agent is trimmed and truncated to 100 characters, platform and recipient to
50, and content is trimmed. -/
theorem C7_amended_validation (db : DB) (touchOk : Bool)
    (agent platform recipient content : String)
    (mt mi si : Option String) (inc : Bool) (st : String)
    (ed : Option (List (String × String))) (now : Nat) :
    ((∃ e, log_message db touchOk agent platform recipient content mt mi si inc st ed now =
        (db, .error (.valueError e)))
      ↔ (agent = "" ∨ platform = "" ∨ recipient = "" ∨ pyStrip content = ""))
    ∧ (∀ m, (log_message db touchOk agent platform recipient content mt mi si inc st ed now).2 = .ok m →
        m.agent = pyTake 100 (pyStrip agent) ∧ m.platform = pyTake 50 (pyStrip platform) ∧
        m.recipient = pyTake 50 (pyStrip recipient) ∧ m.content = pyStrip content) := by
  constructor
  · constructor
    · rintro ⟨e, he⟩
      by_contra hn
      push_neg at hn
      obtain ⟨ha, hp, hr, hc⟩ := hn
      have hcontent : content ≠ "" := by
        intro hx; exact hc (by rw [hx]; rfl)
      have h1 : ¬(agent = "" ∨ platform = "" ∨ recipient = "" ∨ content = "") := by
        rintro (h | h | h | h)
        exacts [ha h, hp h, hr h, hcontent h]
      unfold log_message at he
      rw [if_neg h1, if_neg hc] at he
      by_cases h3 : dupCheck db mi = true
      · rw [if_pos h3] at he; simp at he
      · rw [if_neg h3] at he; simp at he
    · intro hcond
      by_cases h1 : agent = "" ∨ platform = "" ∨ recipient = "" ∨ content = ""
      · exact ⟨_, by unfold log_message; rw [if_pos h1]⟩
      · have hc : pyStrip content = "" := by
          push_neg at h1
          obtain ⟨ha, hp, hr, _⟩ := h1
          rcases hcond with h | h | h | h
          exacts [absurd h ha, absurd h hp, absurd h hr, h]
        exact ⟨_, by unfold log_message; rw [if_neg h1, if_pos hc]⟩
  · intro m hm
    rw [log_message_ok_inv db touchOk agent platform recipient content mt mi si inc st ed now m hm]
    exact ⟨rfl, rfl, rfl, rfl⟩

/-- Witness for C7 at concrete inputs: padded fields are trimmed/truncated on
the success path, and an empty agent is rejected before any write. -/
theorem C7_witness :
    ((⟨"Agent1", "WhatsApp", "+100", "hi", none, none, none, true, "received",
        none, 3⟩ : Msg).agent = pyTake 100 (pyStrip "  Agent1  ") ∧
     (⟨"Agent1", "WhatsApp", "+100", "hi", none, none, none, true, "received",
        none, 3⟩ : Msg).platform = pyTake 50 (pyStrip "WhatsApp ") ∧
     (⟨"Agent1", "WhatsApp", "+100", "hi", none, none, none, true, "received",
        none, 3⟩ : Msg).recipient = pyTake 50 (pyStrip " +100") ∧
     (⟨"Agent1", "WhatsApp", "+100", "hi", none, none, none, true, "received",
        none, 3⟩ : Msg).content = pyStrip " hi ")
    ∧ (∃ e, log_message ⟨[], []⟩ true "" "WhatsApp" "+100" "hi" none none none true
        "received" none 3 = (⟨[], []⟩, .error (.valueError e))) :=
  ⟨(C7_amended_validation ⟨[], []⟩ true "  Agent1  " "WhatsApp " " +100" " hi "
      none none none true "received" none 3).2
      ⟨"Agent1", "WhatsApp", "+100", "hi", none, none, none, true, "received", none, 3⟩
      (by rfl),
   (C7_amended_validation ⟨[], []⟩ true "" "WhatsApp" "+100" "hi"
      none none none true "received" none 3).1.mpr (Or.inl rfl)⟩

/-- C4: `_update_conversation` with key (recipient, platform), agent and
timestamp: if no Conversation row exists for the key, one is created with
`message_count = 1`, owning agent = the message's agent, `last_message_at` =
the message's timestamp and `is_active = true`; if one exists, its owning
agent is set to the message's agent, its `last_message_at` is overwritten
with the new timestamp (no max taken — the conclusion holds for every
existing row, in particular one whose `last_message_at` is later), and its
`message_count` is incremented by exactly 1. -/
theorem C4_touch_semantics (convs : List Conversation) (m : Msg) :
    (findConversation convs m.recipient m.platform = none →
      update_conversation convs m =
        convs ++ [{ recipient := m.recipient, platform := m.platform,
                    agent := some m.agent, last_message_at := m.timestamp,
                    message_count := 1, is_active := true }])
    ∧ (∀ c, findConversation convs m.recipient m.platform = some c →
        findConversation (update_conversation convs m) m.recipient m.platform =
          some { c with agent := some m.agent, last_message_at := m.timestamp,
                        message_count := c.message_count + 1 }) := by
  constructor
  · intro h
    unfold update_conversation
    rw [h]
    rfl
  · intro c h
    unfold update_conversation
    rw [h]
    exact findConversation_updateFirst convs m.recipient m.platform m.agent m.timestamp c h

/-- Witness for C4 at concrete inputs.  The store holds one conversation for
("+100", "WhatsApp") owned by "Agent7" with `message_count = 3` and
`last_message_at = 10`; a message from "Agent9" with the *earlier* timestamp 4
re-owns it, overwrites `last_message_at` with 4 (no max) and bumps the count
to 4; and on an empty store the same message creates the row with count 1. -/
theorem C4_witness :
    (update_conversation []
        ⟨"Agent9", "WhatsApp", "+100", "hi", none, none, none, true, "received", none, 4⟩ =
      [] ++ [{ recipient := "+100", platform := "WhatsApp", agent := some "Agent9",
               last_message_at := 4, message_count := 1, is_active := true }])
    ∧ (findConversation
        (update_conversation [⟨"+100", "WhatsApp", some "Agent7", 10, 3, true⟩]
          ⟨"Agent9", "WhatsApp", "+100", "hi", none, none, none, true, "received", none, 4⟩)
        "+100" "WhatsApp" =
      some { (⟨"+100", "WhatsApp", some "Agent7", 10, 3, true⟩ : Conversation) with
             agent := some "Agent9", last_message_at := 4, message_count := 3 + 1 }) :=
  ⟨(C4_touch_semantics []
      ⟨"Agent9", "WhatsApp", "+100", "hi", none, none, none, true, "received", none, 4⟩).1
      (by decide),
   (C4_touch_semantics [⟨"+100", "WhatsApp", some "Agent7", 10, 3, true⟩]
      ⟨"Agent9", "WhatsApp", "+100", "hi", none, none, none, true, "received", none, 4⟩).2
      ⟨"+100", "WhatsApp", some "Agent7", 10, 3, true⟩ (by decide)⟩

/-- C2: `resolve_incoming_agent` returns the stored Conversation's owning
agent when that Conversation exists and its agent is non-empty, and the
configured default agent identifier when no Conversation exists or its agent
is empty (SQL `NULL` or the empty string).  The function is a pure read by
construction: it consumes the conversation table and returns only a string. -/
theorem C2_resolve_incoming_agent (convs : List Conversation)
    (recipient platform defaultAgent : String) :
    (∀ c a, findConversation convs recipient platform = some c → c.agent = some a →
        a ≠ "" → resolve_incoming_agent convs recipient platform defaultAgent = a)
    ∧ (findConversation convs recipient platform = none →
        resolve_incoming_agent convs recipient platform defaultAgent = defaultAgent)
    ∧ (∀ c, findConversation convs recipient platform = some c →
        (c.agent = none ∨ c.agent = some "") →
        resolve_incoming_agent convs recipient platform defaultAgent = defaultAgent) := by
  refine ⟨?_, ?_, ?_⟩
  · intro c a hc ha hne
    simp [resolve_incoming_agent, hc, ha, hne]
  · intro h
    simp [resolve_incoming_agent, h]
  · intro c hc hempty
    rcases hempty with h | h <;> simp [resolve_incoming_agent, hc, h]

/-- Witness for C2 at concrete inputs: with a stored conversation for
("+100", "WhatsApp") owned by "Agent7", resolution returns "Agent7"; on an
empty store it returns the default. -/
theorem C2_witness :
    resolve_incoming_agent [⟨"+100", "WhatsApp", some "Agent7", 10, 3, true⟩]
        "+100" "WhatsApp" "Agent1" = "Agent7"
    ∧ resolve_incoming_agent [] "+100" "WhatsApp" "Agent1" = "Agent1" :=
  ⟨(C2_resolve_incoming_agent [⟨"+100", "WhatsApp", some "Agent7", 10, 3, true⟩]
      "+100" "WhatsApp" "Agent1").1
      ⟨"+100", "WhatsApp", some "Agent7", 10, 3, true⟩ "Agent7"
      (by decide) rfl (by decide),
   (C2_resolve_incoming_agent [] "+100" "WhatsApp" "Agent1").2.1 rfl⟩

/-- C6: evaluation of `/team/leaves` at the failing input.  With the request
clock at instant 1000000, a leave starting two days later (1000000 + 2·86400)
and ending three days later is *persisted* and acknowledged with HTTP 200:
`create_leave` contains no lead-time comparison at all (its body never reads
a clock), contradicting both the claim and the repository's own test
(`tests/test_system.py` asserts this request returns 400). -/
theorem C6_no_leadtime_check_eval :
    create_leave [] "Agent2" (some (1000000 + 2 * 86400)) (some (1000000 + 3 * 86400))
        (some "Short notice") none =
      ([⟨"Agent2", 1000000 + 2 * 86400, 1000000 + 3 * 86400, some "Short notice",
         "approved"⟩], 200) := by
  rfl

/-- C10: a Facebook postback event is recorded with the agent hard-coded to
"Agent1" — for *every* conversation store, in particular one whose
conversation for the sender is owned by a different agent — whereas an
ordinary inbound Facebook message is recorded under the agent returned by
`resolve_incoming_agent` (the stored value being that agent trimmed and
truncated by `log_message`). -/
theorem C10_postback_hardcoded_agent (db : DB)
    (defaultAgent sender recipientId title payload : String)
    (mid : Option String) (now : Nat) :
    (∀ m, (process_facebook_message db defaultAgent sender recipientId
        (.postback title payload mid) now).2 = .ok m → m.agent = "Agent1")
    ∧ (∀ text m, (process_facebook_message db defaultAgent sender recipientId
        (.textMessage mid text) now).2 = .ok m →
        m.agent = pyTake 100 (pyStrip
          (resolve_incoming_agent db.conversations sender "Facebook" defaultAgent))) := by
  constructor
  · intro m h
    unfold process_facebook_message at h
    rw [log_message_ok_inv _ _ _ _ _ _ _ _ _ _ _ _ _ _ h]
    rfl
  · intro text m h
    unfold process_facebook_message at h
    rw [log_message_ok_inv _ _ _ _ _ _ _ _ _ _ _ _ _ _ h]

/-- Witness for C10 at a concrete input: the store's conversation for
"fbuser1" on Facebook is owned by "Agent9" (so routing would resolve to
"Agent9"), yet the postback is recorded under "Agent1". -/
theorem C10_witness :
    resolve_incoming_agent [⟨"fbuser1", "Facebook", some "Agent9", 1, 5, true⟩]
        "fbuser1" "Facebook" "AgentD" = "Agent9"
    ∧ (⟨"Agent1", "Facebook", "fbuser1", "[Postback] Start: PAYLOAD",
        some "postback", some "pb1", some "fbuser1", true, "received",
        some [("postback_title", "Start"), ("postback_payload", "PAYLOAD")],
        9⟩ : Msg).agent = "Agent1" :=
  ⟨by rfl,
   (C10_postback_hardcoded_agent
      ⟨[], [⟨"fbuser1", "Facebook", some "Agent9", 1, 5, true⟩]⟩
      "AgentD" "fbuser1" "page1" "Start" "PAYLOAD" (some "pb1") 9).1
      ⟨"Agent1", "Facebook", "fbuser1", "[Postback] Start: PAYLOAD",
       some "postback", some "pb1", some "fbuser1", true, "received",
       some [("postback_title", "Start"), ("postback_payload", "PAYLOAD")], 9⟩
      (by rfl)⟩

/-- Membership in one step of the phone-number collection loop. -/
theorem collectPhones_step_mem (acc : List String) (m : Msg) (r : String) :
    (r ∈ if m.recipient ≠ "" && !(acc.contains m.recipient) then acc ++ [m.recipient]
         else acc) ↔
      r ∈ acc ∨ (r ≠ "" ∧ m.recipient = r) := by
  by_cases hemp : m.recipient = ""
  · rw [if_neg (by simp [hemp])]
    constructor
    · exact Or.inl
    · rintro (h | ⟨hr, hm⟩)
      · exact h
      · exact absurd (hemp ▸ hm).symm hr
  · by_cases hin : m.recipient ∈ acc
    · rw [if_neg (by simp; exact fun _ => hin)]
      constructor
      · exact Or.inl
      · rintro (h | ⟨hr, hm⟩)
        · exact h
        · exact hm ▸ hin
    · have hc : acc.contains m.recipient = false := by
        rcases hb : acc.contains m.recipient
        · rfl
        · exact absurd (List.elem_iff.mp hb) hin
      rw [if_pos (by rw [hc]; simp [hemp])]
      simp only [List.mem_append, List.mem_singleton]
      constructor
      · rintro (h | h)
        · exact Or.inl h
        · exact Or.inr ⟨fun hr0 => hemp (h.symm.trans hr0), h.symm⟩
      · rintro (h | ⟨hr, hm⟩)
        · exact Or.inl h
        · exact Or.inr hm.symm

/-- Membership in the phone-number collection loop, for any accumulator:
a value is collected iff it was already in the accumulator or it is the
non-empty recipient of some row. -/
theorem collectPhones_aux_mem (rows : List Msg) (acc : List String) (r : String) :
    r ∈ rows.foldl
        (fun acc m =>
          if m.recipient ≠ "" && !(acc.contains m.recipient) then acc ++ [m.recipient]
          else acc)
        acc ↔
      r ∈ acc ∨ (r ≠ "" ∧ ∃ m ∈ rows, m.recipient = r) := by
  induction rows generalizing acc with
  | nil => simp
  | cons m rest ih =>
    rw [List.foldl_cons, ih, collectPhones_step_mem]
    constructor
    · rintro ((h | ⟨hr, hm⟩) | ⟨hr, mm, hmm, hrec⟩)
      · exact Or.inl h
      · exact Or.inr ⟨hr, m, List.mem_cons_self m rest, hm⟩
      · exact Or.inr ⟨hr, mm, List.mem_cons_of_mem m hmm, hrec⟩
    · rintro (h | ⟨hr, mm, hmm, hrec⟩)
      · exact Or.inl (Or.inl h)
      · rcases List.mem_cons.mp hmm with hh | hh
        · exact Or.inl (Or.inr ⟨hr, hh ▸ hrec⟩)
        · exact Or.inr ⟨hr, mm, hh, hrec⟩

/-- The phone-number collection loop never collects a value twice. -/
theorem collectPhones_aux_nodup (rows : List Msg) (acc : List String) (h : acc.Nodup) :
    (rows.foldl
        (fun acc m =>
          if m.recipient ≠ "" && !(acc.contains m.recipient) then acc ++ [m.recipient]
          else acc)
        acc).Nodup := by
  induction rows generalizing acc with
  | nil => simpa
  | cons m rest ih =>
    rw [List.foldl_cons]
    apply ih
    by_cases hcond : (m.recipient ≠ "" && !(acc.contains m.recipient)) = true
    · rw [if_pos hcond]
      have hnotin : m.recipient ∉ acc := by
        intro hmem
        have h2 := ((Bool.and_eq_true _ _).mp hcond).2
        have h3 : acc.contains m.recipient = true := List.elem_iff.mpr hmem
        rw [h3] at h2
        simp at h2
      simp [List.nodup_append, h, hnotin]
    · rw [if_neg hcond]
      exact h

/-- C8: each daily Excel report counts exactly the Message rows whose agent
matches and whose timestamp lies in the half-open window
[start-of-day, start-of-next-day), split by direction across the two
endpoints (incoming for the "handled" report, outgoing for the "daily"
report); the distinct non-empty recipients of those rows are listed with no
repetition; and the on-leave flag is true exactly when an approved Leave
record's [start_date, end_date) interval contains the day's start instant.
The computation is a pure read by construction: both report functions
consume the stores and return only a `DailyReport`. -/
theorem C8_daily_report_correct (msgs : List Msg) (leaves : List AgentLeave)
    (agentName : String) (start : Nat) :
    ((agent_handled_daily msgs leaves agentName start).messagesHandled =
        msgs.countP (handledFilter agentName start))
    ∧ ((agent_daily msgs leaves agentName start).messagesHandled =
        msgs.countP (outgoingFilter agentName start))
    ∧ (∀ m, handledFilter agentName start m = true ↔
        m.agent = agentName ∧ m.is_incoming = true ∧
          start ≤ m.timestamp ∧ m.timestamp < start + daySeconds)
    ∧ (∀ m, outgoingFilter agentName start m = true ↔
        m.agent = agentName ∧ m.is_incoming = false ∧
          start ≤ m.timestamp ∧ m.timestamp < start + daySeconds)
    ∧ ((agent_handled_daily msgs leaves agentName start).onLeave = true ↔
        ∃ l ∈ leaves, l.agent = agentName ∧ l.status = "approved" ∧
          l.start_date ≤ start ∧ start < l.end_date)
    ∧ ((agent_daily msgs leaves agentName start).onLeave =
        (agent_handled_daily msgs leaves agentName start).onLeave)
    ∧ (∀ r, r ∈ (agent_handled_daily msgs leaves agentName start).phoneNumbers ↔
        (r ≠ "" ∧ ∃ m ∈ msgs, handledFilter agentName start m = true ∧ m.recipient = r))
    ∧ (agent_handled_daily msgs leaves agentName start).phoneNumbers.Nodup := by
  refine ⟨?_, ?_, ?_, ?_, ?_, rfl, ?_, ?_⟩
  · rw [agent_handled_daily, List.countP_eq_length_filter]
  · rw [agent_daily, List.countP_eq_length_filter]
  · intro m
    simp [handledFilter, and_assoc]
  · intro m
    simp [outgoingFilter, and_assoc]
  · simp [agent_handled_daily, is_agent_on_leave, List.any_eq_true, and_assoc]
  · intro r
    rw [agent_handled_daily]
    simp only [collectPhones, collectPhones_aux_mem, List.not_mem_nil, false_or]
    constructor
    · rintro ⟨hr, m, hm, hrec⟩
      exact ⟨hr, m, (List.mem_filter.mp hm).1, (List.mem_filter.mp hm).2, hrec⟩
    · rintro ⟨hr, m, hm, hf, hrec⟩
      exact ⟨hr, m, List.mem_filter.mpr ⟨hm, hf⟩, hrec⟩
  · exact collectPhones_aux_nodup _ [] List.nodup_nil

/-- `Char.ofNat` round-trips through `toNat` on valid code points. -/
theorem toNat_ofNat_valid (n : Nat) (h : n.isValidChar) : (Char.ofNat n).toNat = n := by
  simp [Char.ofNat, h, Char.toNat, Char.ofNatAux]
  simp [UInt32.toNat, UInt32.ofNatCore]

/-- Uppercasing an ASCII character is idempotent. -/
theorem upperChar_idem (c : Char) : upperChar (upperChar c) = upperChar c := by
  by_cases h : 97 ≤ c.toNat ∧ c.toNat ≤ 122
  · have ht : (Char.ofNat (c.toNat - 32)).toNat = c.toNat - 32 :=
      toNat_ofNat_valid _ (Or.inl (by omega))
    simp only [upperChar, if_pos h]
    rw [if_neg (by rw [ht]; omega)]
  · simp only [upperChar, if_neg h]

/-- A successful start-tag match captures between 2 and 5 letters. -/
theorem matchStartTag_some (cs ls rest : List Char)
    (h : matchStartTag cs = some (ls, rest)) : 2 ≤ ls.length ∧ ls.length ≤ 5 := by
  simp only [matchStartTag] at h
  split at h
  · split at h
    · simp only [Option.some.injEq, Prod.mk.injEq] at h
      rename_i hcond
      simp only [Bool.and_eq_true, decide_eq_true_eq] at hcond
      exact h.1 ▸ ⟨hcond.1.1, hcond.1.2⟩
    · exact absurd h (by simp)
  · exact absurd h (by simp)

/-- A successful end-tag match captures between 2 and 5 letters. -/
theorem matchEndTag_some (cs ls rest : List Char)
    (h : matchEndTag cs = some (ls, rest)) : 2 ≤ ls.length ∧ ls.length ≤ 5 := by
  simp only [matchEndTag] at h
  split at h
  · split at h
    · simp only [Option.some.injEq, Prod.mk.injEq] at h
      rename_i hcond
      simp only [Bool.and_eq_true, decide_eq_true_eq] at hcond
      refine h.1 ▸ ⟨?_, ?_⟩ <;> rw [List.length_reverse] <;> omega
    · exact absurd h (by simp)
  · exact absurd h (by simp)

/-- When `extract_initials_and_strip` reports initials, they are the
uppercased captured letters, 2 to 5 of them. -/
theorem extract_initials_some_inv (s cleaned ini : String)
    (h : extract_initials_and_strip s = (cleaned, some ini)) :
    ∃ ls : List Char, ini = ⟨ls.map upperChar⟩ ∧ 2 ≤ ls.length ∧ ls.length ≤ 5 := by
  unfold extract_initials_and_strip at h
  split at h
  · exact Option.noConfusion (congrArg Prod.snd h)
  · split at h
    · rename_i letters rest hm
      exact ⟨letters, (Option.some.inj (congrArg Prod.snd h)).symm,
             matchStartTag_some _ _ _ hm⟩
    · split at h
      · rename_i letters rest hm
        exact ⟨letters, (Option.some.inj (congrArg Prod.snd h)).symm,
               matchEndTag_some _ _ _ hm⟩
      · exact Option.noConfusion (congrArg Prod.snd h)

/-- When `extract_initials_and_strip` reports no initials, the cleaned text
is exactly the stripped input. -/
theorem extract_initials_none_inv (s cleaned : String)
    (h : extract_initials_and_strip s = (cleaned, none)) : cleaned = pyStrip s := by
  unfold extract_initials_and_strip at h
  split at h
  · rename_i he
    have h1 : "" = cleaned := congrArg Prod.fst h
    rw [← h1, he]
    rfl
  · split at h
    · exact Option.noConfusion (congrArg Prod.snd h)
    · split at h
      · exact Option.noConfusion (congrArg Prod.snd h)
      · exact (congrArg Prod.fst h).symm

/-- C9 counterexample.  The input `" hi "` carries no initials tag, yet it is
*not* passed through unchanged: `extract_initials_and_strip` strips the
surrounding whitespace, so the output text differs from the input. -/
theorem C9_counterexample :
    (extract_initials_and_strip " hi ").2 = none ∧
    (extract_initials_and_strip " hi ").1 ≠ " hi " := by
  decide

/-- C9 as amended: on the `/send` logging path, the text is tag-stripped
before sending/storage — the stored content is the (sanitized, trimmed)
cleaned text — and when a tag was found its initials are recorded under the
`extra_data` key `"agent_initials"`; those initials are 2–5 captured letters,
uppercased (idempotently so).  Text without a tag yields no initials and is
passed through *up to leading/trailing-whitespace trimming* (the cleaned
text is the stripped input, not the input itself). -/
theorem C9_amended_initials (db : DB) (agent toPhone text : String)
    (mid : Option String) (now : Nat) :
    (∀ m, (send_message_log db agent toPhone text mid now).2 = .ok m →
        m.content = pyStrip (sanitize_input (extract_initials_and_strip text).1) ∧
        m.extra_data = some (match (extract_initials_and_strip text).2 with
          | some ini => [("provider", "cloud_api"), ("agent_initials", ini)]
          | none => [("provider", "cloud_api")]))
    ∧ (∀ ini, (extract_initials_and_strip text).2 = some ini →
        ini.data.map upperChar = ini.data ∧ 2 ≤ ini.length ∧ ini.length ≤ 5)
    ∧ ((extract_initials_and_strip text).2 = none →
        (extract_initials_and_strip text).1 = pyStrip text) := by
  refine ⟨?_, ?_, ?_⟩
  · intro m h
    unfold send_message_log at h
    rw [log_message_ok_inv _ _ _ _ _ _ _ _ _ _ _ _ _ _ h]
    exact ⟨rfl, rfl⟩
  · intro ini h
    obtain ⟨ls, hini, h2, h5⟩ :=
      extract_initials_some_inv text (extract_initials_and_strip text).1 ini
        (by rw [← h])
    subst hini
    refine ⟨?_, ?_, ?_⟩
    · rw [List.map_map]
      simp [Function.comp, upperChar_idem]
    · show 2 ≤ (ls.map upperChar).length
      rw [List.length_map]; exact h2
    · show (ls.map upperChar).length ≤ 5
      rw [List.length_map]; exact h5
  · intro h
    rcases hx : extract_initials_and_strip text with ⟨c1, o2⟩
    have h2 : o2 = none := by rw [hx] at h; exact h
    subst h2
    exact extract_initials_none_inv text c1 hx

/-- Witness for C9 at a concrete input: sending "^bm Hello there" stores the
cleaned content "Hello there" with `agent_initials = "BM"` (lowercase tag
uppercased) in the structured metadata. -/
theorem C9_witness :
    ((⟨"Agent1", "WhatsApp", "+15550001111", "Hello there", some "text",
       some "wamid.9", none, false, "sent",
       some [("provider", "cloud_api"), ("agent_initials", "BM")], 9⟩ : Msg).content =
        pyStrip (sanitize_input (extract_initials_and_strip "^bm Hello there").1) ∧
     (⟨"Agent1", "WhatsApp", "+15550001111", "Hello there", some "text",
       some "wamid.9", none, false, "sent",
       some [("provider", "cloud_api"), ("agent_initials", "BM")], 9⟩ : Msg).extra_data =
        some (match (extract_initials_and_strip "^bm Hello there").2 with
          | some ini => [("provider", "cloud_api"), ("agent_initials", ini)]
          | none => [("provider", "cloud_api")]))
    ∧ (("BM" : String).data.map upperChar = ("BM" : String).data ∧
       2 ≤ ("BM" : String).length ∧ ("BM" : String).length ≤ 5) :=
  ⟨(C9_amended_initials ⟨[], []⟩ "Agent1" "+15550001111" "^bm Hello there"
      (some "wamid.9") 9).1
      ⟨"Agent1", "WhatsApp", "+15550001111", "Hello there", some "text",
       some "wamid.9", none, false, "sent",
       some [("provider", "cloud_api"), ("agent_initials", "BM")], 9⟩ (by rfl),
   (C9_amended_initials ⟨[], []⟩ "Agent1" "+15550001111" "^bm Hello there"
      (some "wamid.9") 9).2.1 "BM" (by rfl)⟩

end HCTC
